import Mathlib

set_option autoImplicit false

/-!
Verification of the RabbitMQ-topology custom-resource handler
(src/infra/BomExtractionLambdaCdk/lambda/rabbitmq-topology/index.py).

The handler is embedded shallowly:
  - JSON values appearing in request bodies are `JsonVal`;
  - the four raw entity kinds are structures whose fields are `Option`s,
    mirroring Python dict access (`d["k"]` raises `KeyError` when absent,
    `d.get("k", default)` defaults);
  - the HTTP transport is an oracle `Nat → HttpResult` giving the response
    to the n-th call, delivered either on the normal channel or on the
    error channel (urllib raises `HTTPError` for the latter);
  - the inner `api` helper, the four per-kind apply loops, credential
    extraction, and the `on_event` entry point are translated line by line.
-/

namespace RabbitMQTopology

/-- JSON-like values carried in request bodies and `arguments` mappings. -/
inductive JsonVal where
  | str : String → JsonVal
  | num : Int → JsonVal
  | bool : Bool → JsonVal
  | obj : List (String × JsonVal) → JsonVal

/-- A request body: the JSON object literal passed to `api`. -/
abbrev Body := List (String × JsonVal)

/-- Raw exchange entry as deserialized from the topology document: every
recognized key may be absent. -/
structure RawExchange where
  name : Option String
  type : Option String
  durable : Option Bool
  auto_delete : Option Bool
  arguments : Option (List (String × JsonVal))

/-- Raw queue entry from the topology document. -/
structure RawQueue where
  name : Option String
  durable : Option Bool
  auto_delete : Option Bool
  arguments : Option (List (String × JsonVal))

/-- Raw binding entry from the topology document. -/
structure RawBinding where
  source : Option String
  destination : Option String
  routing_key : Option String
  arguments : Option (List (String × JsonVal))

/-- Raw policy entry from the topology document. -/
structure RawPolicy where
  name : Option String
  pattern : Option String
  definition : Option (List (String × JsonVal))
  apply_to : Option String
  priority : Option Int

/-- The deserialized topology document. `topology.get(kind, [])` defaults an
absent kind to the empty list, so each kind is modelled as a plain list. -/
structure RawDoc where
  exchanges : List RawExchange
  queues : List RawQueue
  bindings : List RawBinding
  policies : List RawPolicy

/-- Errors that can escape the handler. `keyError k` models a Python
`KeyError` on key `k`; `jsonDecodeError` a `json.loads` failure;
`credentialError` the `ValueError` raised when credentials are missing
(the spec's `CredentialError`); `apiError status bodyText` the re-raised
`HTTPError` with a status outside 200/201/204 (the spec's `ApiError`). -/
inductive HandlerError where
  | keyError : String → HandlerError
  | jsonDecodeError : String → HandlerError
  | credentialError : HandlerError
  | apiError : Nat → String → HandlerError
  deriving DecidableEq

/-- How the transport delivers one HTTP response: urllib returns 2xx
responses normally and raises `HTTPError` (carrying status and body) for
other statuses; the embedding keeps both channels with arbitrary codes. -/
inductive HttpResult where
  | normal : Nat → String → HttpResult
  | httpError : Nat → String → HttpResult

/-- The inner `api` helper of `on_event`, restricted to its status handling:
a normal response returns its status; an `HTTPError` with code 200, 201 or
204 is normalized to success; any other `HTTPError` is re-raised, carrying
its code and body text. -/
def api (r : HttpResult) : Except HandlerError Nat :=
  match r with
  | .normal status _ => .ok status
  | .httpError code bodyText =>
    if code = 200 ∨ code = 201 ∨ code = 204 then .ok code
    else .error (.apiError code bodyText)

/-- `true` when `api` treats the response as success. -/
def apiOk (r : HttpResult) : Bool :=
  match api r with
  | .ok _ => true
  | .error _ => false

/-- The fixed URL-encoded root virtual host segment. -/
def vhost : String := "%2F"

/-- The stable physical resource id returned by every invocation. -/
def physical_id : String := "rabbitmq-topology-v1"

/-- UTF-8 byte sequence of a character, as Python's `str.encode("utf-8")`
produces for the corresponding code point. -/
def utf8Bytes (c : Char) : List Nat :=
  if c.toNat < 128 then [c.toNat]
  else if c.toNat < 2048 then
    [192 + c.toNat / 64, 128 + c.toNat % 64]
  else if c.toNat < 65536 then
    [224 + c.toNat / 4096, 128 + (c.toNat / 64) % 64, 128 + c.toNat % 64]
  else
    [240 + c.toNat / 262144, 128 + (c.toNat / 4096) % 64,
     128 + (c.toNat / 64) % 64, 128 + c.toNat % 64]

/-- Upper-case hexadecimal digit for `n < 16`. -/
def hexDigit (n : Nat) : Char :=
  if n < 10 then Char.ofNat (48 + n) else Char.ofNat (55 + n)

/-- The characters `urllib.parse.quote` never encodes: ASCII letters,
digits, and `_ . - ~`. With `safe=""` nothing else is exempted. -/
def isAlwaysSafe (c : Char) : Bool :=
  (65 ≤ c.toNat && c.toNat ≤ 90) || (97 ≤ c.toNat && c.toNat ≤ 122) ||
  (48 ≤ c.toNat && c.toNat ≤ 57) || c = '_' || c = '.' || c = '-' || c = '~'

/-- Percent-encoding of one character: safe characters pass through,
everything else becomes `%XX` for each of its UTF-8 bytes. -/
def quoteChars (c : Char) : List Char :=
  if isAlwaysSafe c then [c]
  else (utf8Bytes c).flatMap (fun b => ['%', hexDigit (b / 16), hexDigit (b % 16)])

/-- `urllib.parse.quote(s, safe="")`: percent-encode `s` with no extra
characters exempted (in particular `/` is encoded). -/
def pctQuote (s : String) : String := ⟨s.data.flatMap quoteChars⟩

/-- One HTTP request as issued through `api`: method, path below the
`https://BrokerHost/api` base, and JSON body. -/
structure Request where
  method : String
  path : String
  body : Body

/-- Python mapping access `d["k"]`: raises `KeyError` when absent. -/
def requireKey {α : Type} (o : Option α) (k : String) : Except HandlerError α :=
  match o with
  | some v => .ok v
  | none => .error (.keyError k)

/-- Body of the exchange PUT, with the source's `.get` defaults. -/
def exchange_body (ex : RawExchange) : Body :=
  [("type", .str (ex.type.getD "direct")),
   ("durable", .bool (ex.durable.getD true)),
   ("auto_delete", .bool (ex.auto_delete.getD false)),
   ("arguments", .obj (ex.arguments.getD []))]

/-- Body of the queue PUT, with the source's `.get` defaults. -/
def queue_body (q : RawQueue) : Body :=
  [("durable", .bool (q.durable.getD true)),
   ("auto_delete", .bool (q.auto_delete.getD false)),
   ("arguments", .obj (q.arguments.getD []))]

/-- Body of the binding POST, with the source's `.get` defaults. -/
def binding_body (b : RawBinding) : Body :=
  [("routing_key", .str (b.routing_key.getD "")),
   ("arguments", .obj (b.arguments.getD []))]

/-- Body of the policy PUT: `pattern` and `definition` are the required
values read from the document; `apply-to` and `priority` are defaulted. -/
def policy_body (p : RawPolicy) (pat : String)
    (defn : List (String × JsonVal)) : Body :=
  [("pattern", .str pat),
   ("definition", .obj defn),
   ("apply-to", .str (p.apply_to.getD "queues")),
   ("priority", .num (p.priority.getD 0))]

/-- Build the request for one exchange: `ex["name"]` is read first (a
`KeyError` aborts before any HTTP call for this entity), then
`PUT /exchanges/{vhost}/{quote(name)}` with the defaulted body. -/
def mkExchangeReq (ex : RawExchange) : Except HandlerError Request :=
  match requireKey ex.name "name" with
  | .error e => .error e
  | .ok nm => .ok ⟨"PUT", "/exchanges/" ++ vhost ++ "/" ++ pctQuote nm, exchange_body ex⟩

/-- Build the request for one queue: `PUT /queues/{vhost}/{quote(name)}`. -/
def mkQueueReq (q : RawQueue) : Except HandlerError Request :=
  match requireKey q.name "name" with
  | .error e => .error e
  | .ok nm => .ok ⟨"PUT", "/queues/" ++ vhost ++ "/" ++ pctQuote nm, queue_body q⟩

/-- Build the request for one binding: `b["source"]` then `b["destination"]`
are read (in that order), then
`POST /bindings/{vhost}/e/{quote(source)}/q/{quote(destination)}`. -/
def mkBindingReq (b : RawBinding) : Except HandlerError Request :=
  match requireKey b.source "source" with
  | .error e => .error e
  | .ok src =>
    match requireKey b.destination "destination" with
    | .error e => .error e
    | .ok dst =>
      .ok ⟨"POST", "/bindings/" ++ vhost ++ "/e/" ++ pctQuote src ++ "/q/" ++ pctQuote dst,
           binding_body b⟩

/-- Build the request for one policy: `p["name"]`, `p["pattern"]` (read in
the progress print) and `p["definition"]` are all accessed before the HTTP
call, then `PUT /policies/{vhost}/{quote(name)}`. -/
def mkPolicyReq (p : RawPolicy) : Except HandlerError Request :=
  match requireKey p.name "name" with
  | .error e => .error e
  | .ok nm =>
    match requireKey p.pattern "pattern" with
    | .error e => .error e
    | .ok pat =>
      match requireKey p.definition "definition" with
      | .error e => .error e
      | .ok defn =>
        .ok ⟨"PUT", "/policies/" ++ vhost ++ "/" ++ pctQuote nm, policy_body p pat defn⟩

/-- Outcome of one per-kind apply loop: the requests actually issued, the
number of entities whose counter was incremented (i.e. whose call
succeeded), and the first error if the loop aborted. -/
structure KindResult where
  reqs : List Request
  okCount : Nat
  err : Option HandlerError

/-- One per-kind apply loop of `on_event`: for each entity, build its
request (a `KeyError` aborts with no call), issue it (the `start + i`-th
call overall, answered by the oracle), stop at the first `api` failure,
and count the successes. -/
def runKind {α : Type} (oracle : Nat → HttpResult) (mk : α → Except HandlerError Request)
    (start : Nat) : List α → KindResult
  | [] => ⟨[], 0, none⟩
  | a :: as =>
    match mk a with
    | .error e => ⟨[], 0, some e⟩
    | .ok req =>
      match api (oracle start) with
      | .error e => ⟨[req], 0, some e⟩
      | .ok _ =>
        let r := runKind oracle mk (start + 1) as
        ⟨req :: r.reqs, r.okCount + 1, r.err⟩

/-- Outcome of the whole provisioning section of `on_event`: the full
trace of issued requests, the per-kind counters, and the first error. -/
structure ApplyOutcome where
  trace : List Request
  counts : Nat × Nat × Nat × Nat
  err : Option HandlerError

/-- The provisioning section of `on_event`: exchanges, then queues, then
bindings, then policies, aborting at the first error. The oracle index
is the number of HTTP calls already issued. -/
def applyTopology (oracle : Nat → HttpResult) (doc : RawDoc) : ApplyOutcome :=
  let rEx := runKind oracle mkExchangeReq 0 doc.exchanges
  match rEx.err with
  | some e => ⟨rEx.reqs, (rEx.okCount, 0, 0, 0), some e⟩
  | none =>
    let rQ := runKind oracle mkQueueReq rEx.reqs.length doc.queues
    match rQ.err with
    | some e => ⟨rEx.reqs ++ rQ.reqs, (rEx.okCount, rQ.okCount, 0, 0), some e⟩
    | none =>
      let rB := runKind oracle mkBindingReq (rEx.reqs.length + rQ.reqs.length) doc.bindings
      match rB.err with
      | some e => ⟨rEx.reqs ++ rQ.reqs ++ rB.reqs, (rEx.okCount, rQ.okCount, rB.okCount, 0), some e⟩
      | none =>
        let rP := runKind oracle mkPolicyReq
          (rEx.reqs.length + rQ.reqs.length + rB.reqs.length) doc.policies
        ⟨rEx.reqs ++ rQ.reqs ++ rB.reqs ++ rP.reqs,
         (rEx.okCount, rQ.okCount, rB.okCount, rP.okCount), rP.err⟩

/-- Python `d.get(k)` on a string-valued mapping (first matching key). -/
def pyGet (m : List (String × String)) (k : String) : Option String := m.lookup k

/-- Python `a or b` on optional strings: `a` unless it is falsy
(`None` or the empty string), else `b`. -/
def pyOr (a b : Option String) : Option String :=
  match a with
  | some s => if s = "" then b else some s
  | none => b

/-- Python truthiness of an optional string: `None` and `""` are falsy. -/
def truthyOpt (o : Option String) : Bool :=
  match o with
  | some s => !(s == "")
  | none => false

/-- Credential extraction from the secret payload:
`secret.get("username") or secret.get("Username")` and likewise for the
password, raising when either result is falsy. -/
def extract_credentials (secret_value : List (String × String)) :
    Except HandlerError (String × String) :=
  let username := pyOr (pyGet secret_value "username") (pyGet secret_value "Username")
  let password := pyOr (pyGet secret_value "password") (pyGet secret_value "Password")
  if truthyOpt username && truthyOpt password then
    .ok (username.getD "", password.getD "")
  else
    .error .credentialError

/-- The serialized `Topology` property: either text that `json.loads`
deserializes to a document, or syntactically invalid text. -/
inductive TopologyText where
  | valid : RawDoc → TopologyText
  | invalid : String → TopologyText

/-- `json.loads` on the topology text. -/
def json_loads (t : TopologyText) : Except HandlerError RawDoc :=
  match t with
  | .valid doc => .ok doc
  | .invalid msg => .error (.jsonDecodeError msg)

/-- The lifecycle request type of the event. -/
inductive RequestType where
  | Create
  | Update
  | Delete

/-- The `ResourceProperties` mapping, restricted to the keys the handler
knows; each may be absent. -/
structure ResourceProperties where
  Region : Option String
  SecretArn : Option String
  BrokerHost : Option String
  Topology : Option TopologyText

/-- The handler's return value: the physical id, and the `Data` mapping
when present. -/
structure HandlerReturn where
  PhysicalResourceId : String
  Data : Option (List (String × String))

/-- Observable outcome of one `on_event` invocation: how many calls were
made to the secret store, the HTTP requests issued to the broker, and the
returned value or the exception that escaped. -/
structure Outcome where
  secretCalls : Nat
  trace : List Request
  result : Except HandlerError HandlerReturn

/-- The `Data` mapping of a successful apply: the per-kind counters
serialized as text, in the counter dict's insertion order. -/
def countsData (c : Nat × Nat × Nat × Nat) : List (String × String) :=
  [("exchanges", toString c.1), ("queues", toString c.2.1),
   ("bindings", toString c.2.2.1), ("policies", toString c.2.2.2)]

/-- The `on_event` entry point. A `Delete` request returns at once with
the physical id and no `Data`. Otherwise the handler reads `SecretArn`,
`BrokerHost` and `Topology` (in source order, each a possible `KeyError`),
deserializes the topology, fetches and validates the credentials, applies
the topology, and on success returns the physical id with the counters as
`Data`. -/
def on_event (request_type : RequestType) (props : ResourceProperties)
    (secret_value : List (String × String)) (oracle : Nat → HttpResult) : Outcome :=
  match request_type with
  | .Delete => ⟨0, [], .ok ⟨physical_id, none⟩⟩
  | _ =>
    match requireKey props.SecretArn "SecretArn" with
    | .error e => ⟨0, [], .error e⟩
    | .ok _ =>
      match requireKey props.BrokerHost "BrokerHost" with
      | .error e => ⟨0, [], .error e⟩
      | .ok _ =>
        match requireKey props.Topology "Topology" with
        | .error e => ⟨0, [], .error e⟩
        | .ok t =>
          match json_loads t with
          | .error e => ⟨0, [], .error e⟩
          | .ok doc =>
            match extract_credentials secret_value with
            | .error e => ⟨1, [], .error e⟩
            | .ok _ =>
              let out := applyTopology oracle doc
              match out.err with
              | some e => ⟨1, out.trace, .error e⟩
              | none => ⟨1, out.trace, .ok ⟨physical_id, some (countsData out.counts)⟩⟩

/-- The request an exchange entry generates when its name is present. -/
def exchangeReqT (ex : RawExchange) : Request :=
  ⟨"PUT", "/exchanges/" ++ vhost ++ "/" ++ pctQuote (ex.name.getD ""), exchange_body ex⟩

/-- The request a queue entry generates when its name is present. -/
def queueReqT (q : RawQueue) : Request :=
  ⟨"PUT", "/queues/" ++ vhost ++ "/" ++ pctQuote (q.name.getD ""), queue_body q⟩

/-- The request a binding entry generates when source and destination are
present. -/
def bindingReqT (b : RawBinding) : Request :=
  ⟨"POST", "/bindings/" ++ vhost ++ "/e/" ++ pctQuote (b.source.getD "") ++ "/q/" ++
     pctQuote (b.destination.getD ""), binding_body b⟩

/-- The request a policy entry generates when its required fields are
present. -/
def policyReqT (p : RawPolicy) : Request :=
  ⟨"PUT", "/policies/" ++ vhost ++ "/" ++ pctQuote (p.name.getD ""),
   policy_body p (p.pattern.getD "") (p.definition.getD [])⟩

/-- Every required field is present. Note no uniqueness condition: the
source never checks for duplicate names. -/
def wellFormed (doc : RawDoc) : Bool :=
  doc.exchanges.all (fun ex => ex.name.isSome) &&
  doc.queues.all (fun q => q.name.isSome) &&
  doc.bindings.all (fun b => b.source.isSome && b.destination.isSome) &&
  doc.policies.all (fun p => p.name.isSome && p.pattern.isSome && p.definition.isSome)

/-- The full request sequence of a document: exchanges, queues, bindings,
policies, each kind in document order. -/
def fullReqs (doc : RawDoc) : List Request :=
  doc.exchanges.map exchangeReqT ++ doc.queues.map queueReqT ++
  doc.bindings.map bindingReqT ++ doc.policies.map policyReqT

/-- A transport in which every call gets a normal 200 response. -/
def alwaysOk : Nat → HttpResult := fun _ => .normal 200 ""

/-- The spec's worked scenario document: one topic exchange `orders.ex`,
one queue `orders.q`, one binding between them with routing key
`order.*`, and no policies. -/
def scenarioDoc : RawDoc :=
  ⟨[⟨some "orders.ex", some "topic", none, none, none⟩],
   [⟨some "orders.q", none, none, none⟩],
   [⟨some "orders.ex", some "orders.q", some "order.*", none⟩],
   []⟩

/-- Resource properties carrying the scenario document. -/
def scenarioProps : ResourceProperties :=
  ⟨none, some "arn:secret", some "broker.example.com", some (.valid scenarioDoc)⟩

/-- A secret payload with lowercase credential keys. -/
def scenarioSecret : List (String × String) := [("username", "u"), ("password", "p")]

/-- A document whose exchange name `a` is duplicated within its kind. -/
def dupDoc : RawDoc :=
  ⟨[⟨some "a", none, none, none, none⟩, ⟨some "a", some "fanout", none, none, none⟩],
   [], [], []⟩

/-- Resource properties carrying the duplicate-name document. -/
def dupProps : ResourceProperties :=
  ⟨none, some "arn:secret", some "broker.example.com", some (.valid dupDoc)⟩

/-- A document with one well-formed exchange followed by a binding whose
required `source` field is missing. -/
def missingFieldDoc : RawDoc :=
  ⟨[⟨some "ex1", none, none, none, none⟩],
   [],
   [⟨none, some "q1", none, none⟩],
   []⟩

/-- A document with one exchange, one queue, one binding and one policy,
used to exercise a failure in the middle of the pass. -/
def midFailDoc : RawDoc :=
  ⟨[⟨some "e1", none, none, none, none⟩],
   [⟨some "q1", none, none, none⟩],
   [⟨some "e1", some "q1", none, none⟩],
   [⟨some "pol", some ".*", some [], none, none⟩]⟩

/-- A transport whose second call (index 1) is answered with a 409
conflict on the error channel; every other call gets a normal 200. -/
def oracle409 : Nat → HttpResult :=
  fun i => if i = 1 then .httpError 409 "conflict" else .normal 200 ""

/-- Resource properties with every field absent except a syntactically
invalid topology text. -/
def invalidTopologyProps : ResourceProperties :=
  ⟨none, some "arn:secret", some "broker.example.com", some (.invalid "not json")⟩

/-- Resource properties with every field absent. -/
def emptyProps : ResourceProperties := ⟨none, none, none, none⟩

/-- Resource properties carrying the mid-failure document. -/
def midProps : ResourceProperties :=
  ⟨none, some "arn:secret", some "broker.example.com", some (.valid midFailDoc)⟩

/-- An exchange entry with only its name present. -/
def bareExchange : RawExchange := ⟨some "e", none, none, none, none⟩

/-- A queue entry with only its name present. -/
def bareQueue : RawQueue := ⟨some "q", none, none, none⟩

/-- A binding entry with only source and destination present. -/
def bareBinding : RawBinding := ⟨some "s", some "d", none, none⟩

/-- A policy entry with only its required fields present. -/
def barePolicy : RawPolicy := ⟨some "p", some ".*", some [], none, none⟩

/-! ## Generic lemmas about the per-kind apply loop -/

theorem runKind_all_ok {α : Type} (oracle : Nat → HttpResult)
    (mk : α → Except HandlerError Request) (items : List α) (L : List Request)
    (start : Nat) (hmk : items.map mk = L.map Except.ok)
    (hok : ∀ i, i < L.length → apiOk (oracle (start + i)) = true) :
    runKind oracle mk start items = ⟨L, L.length, none⟩ := by
  induction items generalizing L start with
  | nil =>
    cases L with
    | nil => rfl
    | cons r L => simp at hmk
  | cons a as ih =>
    cases L with
    | nil => simp at hmk
    | cons r L =>
      simp only [List.map_cons, List.cons.injEq] at hmk
      obtain ⟨ha, has⟩ := hmk
      have h0 := hok 0 (by simp)
      rw [Nat.add_zero] at h0
      have hshift : ∀ i, i < L.length → apiOk (oracle (start + 1 + i)) = true := by
        intro i hi
        have h := hok (i + 1) (by simp; omega)
        rwa [show start + (i + 1) = start + 1 + i by omega] at h
      have ihr := ih L (start + 1) has hshift
      unfold runKind
      rw [ha]
      cases hres : api (oracle start) with
      | error e =>
        unfold apiOk at h0
        rw [hres] at h0
        simp at h0
      | ok v =>
        simp only [ihr, List.length_cons]

theorem runKind_fail_at {α : Type} (oracle : Nat → HttpResult)
    (mk : α → Except HandlerError Request) (items : List α) (L : List Request)
    (start k : Nat) (e : HandlerError) (hmk : items.map mk = L.map Except.ok)
    (hk : k < L.length)
    (hok : ∀ i, i < k → apiOk (oracle (start + i)) = true)
    (hfail : api (oracle (start + k)) = .error e) :
    runKind oracle mk start items = ⟨L.take (k + 1), k, some e⟩ := by
  induction items generalizing L start k with
  | nil =>
    cases L with
    | nil => simp at hk
    | cons r L => simp at hmk
  | cons a as ih =>
    cases L with
    | nil => simp at hmk
    | cons r L =>
      simp only [List.map_cons, List.cons.injEq] at hmk
      obtain ⟨ha, has⟩ := hmk
      cases k with
      | zero =>
        rw [Nat.add_zero] at hfail
        unfold runKind
        rw [ha, hfail]
        simp
      | succ j =>
        have h0 := hok 0 (by omega)
        rw [Nat.add_zero] at h0
        have hshift : ∀ i, i < j → apiOk (oracle (start + 1 + i)) = true := by
          intro i hi
          have h := hok (i + 1) (by omega)
          rwa [show start + (i + 1) = start + 1 + i by omega] at h
        have hfail' : api (oracle (start + 1 + j)) = .error e := by
          rwa [show start + (j + 1) = start + 1 + j by omega] at hfail
        have ihr := ih L (start + 1) j has (by simpa using hk) hshift hfail'
        unfold runKind
        rw [ha]
        cases hres : api (oracle start) with
        | error e1 =>
          unfold apiOk at h0
          rw [hres] at h0
          simp at h0
        | ok v =>
          simp only [ihr, List.take_succ_cons]

theorem runKind_err_none {α : Type} (oracle : Nat → HttpResult)
    (mk : α → Except HandlerError Request) (items : List α) (start : Nat)
    (h : (runKind oracle mk start items).err = none) :
    (runKind oracle mk start items).okCount = items.length ∧
    (runKind oracle mk start items).reqs.length = items.length := by
  induction items generalizing start with
  | nil => simp [runKind]
  | cons a as ih =>
    unfold runKind at h ⊢
    cases hmk : mk a with
    | error e => rw [hmk] at h; simp at h
    | ok req =>
      rw [hmk] at h
      cases hres : api (oracle start) with
      | error e1 => rw [hres] at h; simp at h
      | ok v =>
        rw [hres] at h
        have hr := ih (start + 1) (by simpa using h)
        simp only [List.length_cons]
        simp
        omega

/-! ## Well-formed entities build their requests without error -/

theorem map_mkExchangeReq (l : List RawExchange)
    (hl : l.all (fun ex => ex.name.isSome) = true) :
    l.map mkExchangeReq = (l.map exchangeReqT).map Except.ok := by
  induction l with
  | nil => rfl
  | cons ex l ih =>
    simp only [List.all_cons, Bool.and_eq_true] at hl
    obtain ⟨nm, hnm⟩ := Option.isSome_iff_exists.mp hl.1
    simp only [List.map_cons, ih hl.2, List.cons.injEq, and_true]
    rw [mkExchangeReq, exchangeReqT, hnm]
    simp [requireKey]

theorem map_mkQueueReq (l : List RawQueue)
    (hl : l.all (fun q => q.name.isSome) = true) :
    l.map mkQueueReq = (l.map queueReqT).map Except.ok := by
  induction l with
  | nil => rfl
  | cons q l ih =>
    simp only [List.all_cons, Bool.and_eq_true] at hl
    obtain ⟨nm, hnm⟩ := Option.isSome_iff_exists.mp hl.1
    simp only [List.map_cons, ih hl.2, List.cons.injEq, and_true]
    rw [mkQueueReq, queueReqT, hnm]
    simp [requireKey]

theorem map_mkBindingReq (l : List RawBinding)
    (hl : l.all (fun b => b.source.isSome && b.destination.isSome) = true) :
    l.map mkBindingReq = (l.map bindingReqT).map Except.ok := by
  induction l with
  | nil => rfl
  | cons b l ih =>
    simp only [List.all_cons, Bool.and_eq_true] at hl
    obtain ⟨src, hsrc⟩ := Option.isSome_iff_exists.mp hl.1.1
    obtain ⟨dst, hdst⟩ := Option.isSome_iff_exists.mp hl.1.2
    simp only [List.map_cons, ih hl.2, List.cons.injEq, and_true]
    rw [mkBindingReq, bindingReqT, hsrc, hdst]
    simp [requireKey]

theorem map_mkPolicyReq (l : List RawPolicy)
    (hl : l.all (fun p => p.name.isSome && p.pattern.isSome && p.definition.isSome) = true) :
    l.map mkPolicyReq = (l.map policyReqT).map Except.ok := by
  induction l with
  | nil => rfl
  | cons p l ih =>
    simp only [List.all_cons, Bool.and_eq_true] at hl
    obtain ⟨nm, hnm⟩ := Option.isSome_iff_exists.mp hl.1.1.1
    obtain ⟨pat, hpat⟩ := Option.isSome_iff_exists.mp hl.1.1.2
    obtain ⟨defn, hdefn⟩ := Option.isSome_iff_exists.mp hl.1.2
    simp only [List.map_cons, ih hl.2, List.cons.injEq, and_true]
    rw [mkPolicyReq, policyReqT, hnm, hpat, hdefn]
    simp [requireKey]

/-! ## The full pass: all calls succeed -/

theorem applyTopology_all_ok (oracle : Nat → HttpResult) (doc : RawDoc)
    (hwf : wellFormed doc = true)
    (hok : ∀ i, i < (fullReqs doc).length → apiOk (oracle i) = true) :
    applyTopology oracle doc =
      ⟨fullReqs doc,
       (doc.exchanges.length, doc.queues.length, doc.bindings.length, doc.policies.length),
       none⟩ := by
  simp only [wellFormed, Bool.and_eq_true] at hwf
  obtain ⟨⟨⟨hE, hQ⟩, hB⟩, hP⟩ := hwf
  have lenFull : (fullReqs doc).length =
      doc.exchanges.length + doc.queues.length + doc.bindings.length + doc.policies.length := by
    simp [fullReqs]
    omega
  have heE : runKind oracle mkExchangeReq 0 doc.exchanges =
      ⟨doc.exchanges.map exchangeReqT, (doc.exchanges.map exchangeReqT).length, none⟩ := by
    apply runKind_all_ok oracle mkExchangeReq doc.exchanges _ 0 (map_mkExchangeReq _ hE)
    intro i hi
    simp only [List.length_map] at hi
    rw [Nat.zero_add]
    exact hok i (by omega)
  have heQ : runKind oracle mkQueueReq doc.exchanges.length doc.queues =
      ⟨doc.queues.map queueReqT, (doc.queues.map queueReqT).length, none⟩ := by
    apply runKind_all_ok oracle mkQueueReq doc.queues _ _ (map_mkQueueReq _ hQ)
    intro i hi
    simp only [List.length_map] at hi
    exact hok _ (by omega)
  have heB : runKind oracle mkBindingReq (doc.exchanges.length + doc.queues.length)
      doc.bindings =
      ⟨doc.bindings.map bindingReqT, (doc.bindings.map bindingReqT).length, none⟩ := by
    apply runKind_all_ok oracle mkBindingReq doc.bindings _ _ (map_mkBindingReq _ hB)
    intro i hi
    simp only [List.length_map] at hi
    exact hok _ (by omega)
  have heP : runKind oracle mkPolicyReq
      (doc.exchanges.length + doc.queues.length + doc.bindings.length) doc.policies =
      ⟨doc.policies.map policyReqT, (doc.policies.map policyReqT).length, none⟩ := by
    apply runKind_all_ok oracle mkPolicyReq doc.policies _ _ (map_mkPolicyReq _ hP)
    intro i hi
    simp only [List.length_map] at hi
    exact hok _ (by omega)
  simp only [applyTopology, heE, List.length_map, heQ, heB, heP, fullReqs]

/-! ## The full pass: counters on success, trace on the first failure -/

theorem applyTopology_err_none (oracle : Nat → HttpResult) (doc : RawDoc)
    (h : (applyTopology oracle doc).err = none) :
    (applyTopology oracle doc).counts =
      (doc.exchanges.length, doc.queues.length, doc.bindings.length, doc.policies.length) := by
  simp only [applyTopology] at h ⊢
  cases hE : (runKind oracle mkExchangeReq 0 doc.exchanges).err with
  | some e => rw [hE] at h; simp at h
  | none =>
    rw [hE] at h
    cases hQ : (runKind oracle mkQueueReq
        (runKind oracle mkExchangeReq 0 doc.exchanges).reqs.length doc.queues).err with
    | some e => rw [hQ] at h; simp at h
    | none =>
      rw [hQ] at h
      cases hB : (runKind oracle mkBindingReq
          ((runKind oracle mkExchangeReq 0 doc.exchanges).reqs.length +
           (runKind oracle mkQueueReq
             (runKind oracle mkExchangeReq 0 doc.exchanges).reqs.length doc.queues).reqs.length)
          doc.bindings).err with
      | some e => rw [hB] at h; simp at h
      | none =>
        rw [hB] at h
        simp only at h
        have hcE := runKind_err_none oracle mkExchangeReq doc.exchanges 0 hE
        have hcQ := runKind_err_none oracle mkQueueReq _ _ hQ
        have hcB := runKind_err_none oracle mkBindingReq _ _ hB
        have hcP := runKind_err_none oracle mkPolicyReq _ _ h
        simp only [hcE.1, hcQ.1, hcB.1, hcP.1]

theorem append_take_append {β : Type} (l1 l2 : List β) (j : Nat) :
    (l1 ++ l2).take (l1.length + j + 1) = l1 ++ l2.take (j + 1) := by
  rw [List.take_append_eq_append_take, List.take_of_length_le (by omega)]
  congr 2
  omega

theorem applyTopology_fail_at (oracle : Nat → HttpResult) (doc : RawDoc)
    (k : Nat) (e : HandlerError) (hwf : wellFormed doc = true)
    (hk : k < (fullReqs doc).length)
    (hok : ∀ i, i < k → apiOk (oracle i) = true)
    (hfail : api (oracle k) = .error e) :
    (applyTopology oracle doc).trace = (fullReqs doc).take (k + 1) ∧
    (applyTopology oracle doc).err = some e := by
  simp only [wellFormed, Bool.and_eq_true] at hwf
  obtain ⟨⟨⟨hE, hQ⟩, hB⟩, hP⟩ := hwf
  have hmkE := map_mkExchangeReq _ hE
  have hmkQ := map_mkQueueReq _ hQ
  have hmkB := map_mkBindingReq _ hB
  have hmkP := map_mkPolicyReq _ hP
  simp only [fullReqs, List.length_append, List.length_map] at hk
  rcases Nat.lt_or_ge k doc.exchanges.length with h1 | h1
  · -- the failing call is an exchange PUT
    have heE := runKind_fail_at oracle mkExchangeReq doc.exchanges
      (doc.exchanges.map exchangeReqT) 0 k e hmkE (by simpa using h1)
      (fun i hi => by simpa using hok i hi) (by simpa using hfail)
    simp only [applyTopology, heE, fullReqs]
    refine ⟨?_, trivial⟩
    simp only [List.append_assoc]
    rw [List.take_append_of_le_length (by simp; omega)]
  · rcases Nat.lt_or_ge k (doc.exchanges.length + doc.queues.length) with h2 | h2
    · -- the failing call is a queue PUT
      have heE := runKind_all_ok oracle mkExchangeReq doc.exchanges
        (doc.exchanges.map exchangeReqT) 0 hmkE
        (fun i hi => by simp only [List.length_map] at hi; simpa using hok i (by omega))
      have heQ := runKind_fail_at oracle mkQueueReq doc.queues
        (doc.queues.map queueReqT) doc.exchanges.length (k - doc.exchanges.length) e hmkQ
        (by simp only [List.length_map]; omega)
        (fun i hi => hok (doc.exchanges.length + i) (by omega))
        (by rw [show doc.exchanges.length + (k - doc.exchanges.length) = k by omega]
            exact hfail)
      simp only [applyTopology, heE, List.length_map, heQ, fullReqs]
      refine ⟨?_, trivial⟩
      simp only [List.append_assoc]
      rw [show k + 1 = (doc.exchanges.map exchangeReqT).length + (k - doc.exchanges.length) + 1
            by simp; omega,
        append_take_append,
        List.take_append_of_le_length (by simp; omega)]
    · rcases Nat.lt_or_ge k
        (doc.exchanges.length + doc.queues.length + doc.bindings.length) with h3 | h3
      · -- the failing call is a binding POST
        have heE := runKind_all_ok oracle mkExchangeReq doc.exchanges
          (doc.exchanges.map exchangeReqT) 0 hmkE
          (fun i hi => by simp only [List.length_map] at hi; simpa using hok i (by omega))
        have heQ := runKind_all_ok oracle mkQueueReq doc.queues
          (doc.queues.map queueReqT) doc.exchanges.length hmkQ
          (fun i hi => by
            simp only [List.length_map] at hi
            exact hok (doc.exchanges.length + i) (by omega))
        have heB := runKind_fail_at oracle mkBindingReq doc.bindings
          (doc.bindings.map bindingReqT) (doc.exchanges.length + doc.queues.length)
          (k - doc.exchanges.length - doc.queues.length) e hmkB
          (by simp only [List.length_map]; omega)
          (fun i hi => hok (doc.exchanges.length + doc.queues.length + i) (by omega))
          (by rw [show doc.exchanges.length + doc.queues.length +
                (k - doc.exchanges.length - doc.queues.length) = k by omega]
              exact hfail)
        simp only [applyTopology, heE, List.length_map, heQ, heB, fullReqs]
        refine ⟨?_, trivial⟩
        simp only [List.append_assoc]
        rw [show k + 1 = (doc.exchanges.map exchangeReqT).length +
              (doc.queues.length + (k - doc.exchanges.length - doc.queues.length)) + 1
            by simp; omega,
          append_take_append,
          show doc.queues.length + (k - doc.exchanges.length - doc.queues.length) + 1 =
              (doc.queues.map queueReqT).length +
                (k - doc.exchanges.length - doc.queues.length) + 1
            by simp,
          append_take_append,
          List.take_append_of_le_length (by simp; omega)]
      · -- the failing call is a policy PUT
        have heE := runKind_all_ok oracle mkExchangeReq doc.exchanges
          (doc.exchanges.map exchangeReqT) 0 hmkE
          (fun i hi => by simp only [List.length_map] at hi; simpa using hok i (by omega))
        have heQ := runKind_all_ok oracle mkQueueReq doc.queues
          (doc.queues.map queueReqT) doc.exchanges.length hmkQ
          (fun i hi => by
            simp only [List.length_map] at hi
            exact hok (doc.exchanges.length + i) (by omega))
        have heB := runKind_all_ok oracle mkBindingReq doc.bindings
          (doc.bindings.map bindingReqT) (doc.exchanges.length + doc.queues.length) hmkB
          (fun i hi => by
            simp only [List.length_map] at hi
            exact hok (doc.exchanges.length + doc.queues.length + i) (by omega))
        have heP := runKind_fail_at oracle mkPolicyReq doc.policies
          (doc.policies.map policyReqT)
          (doc.exchanges.length + doc.queues.length + doc.bindings.length)
          (k - doc.exchanges.length - doc.queues.length - doc.bindings.length) e hmkP
          (by simp only [List.length_map]; omega)
          (fun i hi =>
            hok (doc.exchanges.length + doc.queues.length + doc.bindings.length + i) (by omega))
          (by rw [show doc.exchanges.length + doc.queues.length + doc.bindings.length +
                (k - doc.exchanges.length - doc.queues.length - doc.bindings.length) = k
                by omega]
              exact hfail)
        simp only [applyTopology, heE, List.length_map, heQ, heB, heP, fullReqs]
        refine ⟨?_, trivial⟩
        simp only [List.append_assoc]
        rw [show k + 1 = (doc.exchanges.map exchangeReqT).length +
              (doc.queues.length + (doc.bindings.length +
                (k - doc.exchanges.length - doc.queues.length - doc.bindings.length))) + 1
            by simp; omega,
          append_take_append,
          show doc.queues.length + (doc.bindings.length +
              (k - doc.exchanges.length - doc.queues.length - doc.bindings.length)) + 1 =
            (doc.queues.map queueReqT).length + (doc.bindings.length +
              (k - doc.exchanges.length - doc.queues.length - doc.bindings.length)) + 1
            by simp,
          append_take_append,
          show doc.bindings.length +
              (k - doc.exchanges.length - doc.queues.length - doc.bindings.length) + 1 =
            (doc.bindings.map bindingReqT).length +
              (k - doc.exchanges.length - doc.queues.length - doc.bindings.length) + 1
            by simp,
          append_take_append]

/-! ## Percent-encoding output alphabet -/

theorem char_toNat_lt (c : Char) : c.toNat < 1114112 := by
  rcases c.valid with h | ⟨h1, h2⟩
  · exact Nat.lt_trans h (by norm_num)
  · exact h2

theorem utf8Bytes_lt_256 (c : Char) : ∀ b ∈ utf8Bytes c, b < 256 := by
  intro b hb
  have hv := char_toNat_lt c
  unfold utf8Bytes at hb
  rcases Nat.lt_or_ge c.toNat 128 with h1 | h1
  · rw [if_pos h1] at hb
    simp at hb
    omega
  · rw [if_neg (by omega)] at hb
    rcases Nat.lt_or_ge c.toNat 2048 with h2 | h2
    · rw [if_pos h2] at hb
      simp at hb
      rcases hb with hb | hb <;> omega
    · rw [if_neg (by omega)] at hb
      rcases Nat.lt_or_ge c.toNat 65536 with h3 | h3
      · rw [if_pos h3] at hb
        simp at hb
        rcases hb with hb | hb | hb <;> omega
      · rw [if_neg (by omega)] at hb
        simp at hb
        rcases hb with hb | hb | hb | hb <;> omega

theorem hexDigit_safe : ∀ i : Fin 16, isAlwaysSafe (hexDigit i.val) = true := by decide

theorem quoteChars_safe (a c : Char) (h : c ∈ quoteChars a) :
    isAlwaysSafe c = true ∨ c = '%' := by
  unfold quoteChars at h
  by_cases hs : isAlwaysSafe a
  · rw [if_pos hs] at h
    simp at h
    subst h
    exact Or.inl hs
  · rw [if_neg hs] at h
    simp only [List.mem_flatMap] at h
    obtain ⟨b, hb, hc⟩ := h
    have hlt := utf8Bytes_lt_256 a b hb
    simp at hc
    rcases hc with hc | hc | hc
    · exact Or.inr hc
    · exact hc ▸ Or.inl (hexDigit_safe ⟨b / 16, by omega⟩)
    · exact hc ▸ Or.inl (hexDigit_safe ⟨b % 16, by omega⟩)

theorem pctQuote_safe (s : String) (c : Char) (h : c ∈ (pctQuote s).data) :
    isAlwaysSafe c = true ∨ c = '%' := by
  replace h : c ∈ s.data.flatMap quoteChars := h
  simp only [List.mem_flatMap] at h
  obtain ⟨a, _, hc⟩ := h
  exact quoteChars_safe a c hc

/-! ## Claims -/

/-- Claim C1, counterexample: a response with status 202 — outside
200/201/204 — delivered on the transport's normal channel is returned as
success by `api`, not turned into an `ApiError`; the claim's "any response
with any other status code causes the call to fail" does not hold on the
normal channel. -/
theorem C1_counterexample :
    api (.normal 202 "Accepted") = .ok 202 ∧
    api (.normal 202 "Accepted") ≠ .error (.apiError 202 "Accepted") :=
  ⟨rfl, fun h => Except.noConfusion h⟩

/-- Claim C1, amended: a status of 200, 201 or 204 is success on both the
normal channel and the error channel; any other status delivered as an
HTTP-level error fails with an `ApiError` carrying that status and the
response body text; a response delivered on the normal channel returns its
status as success whatever the code (with the standard urllib transport
only 2xx statuses arrive on that channel). Each entity issues exactly one
call, so there is no retry. -/
theorem C1_api_status_normalization (s : Nat) (b : String) :
    ((s = 200 ∨ s = 201 ∨ s = 204) →
      api (.normal s b) = .ok s ∧ api (.httpError s b) = .ok s) ∧
    (¬(s = 200 ∨ s = 201 ∨ s = 204) →
      api (.httpError s b) = .error (.apiError s b)) ∧
    api (.normal s b) = .ok s := by
  refine ⟨fun h => ⟨rfl, ?_⟩, fun h => ?_, rfl⟩
  · simp [api, h]
  · simp [api, h]

/-- Witness for C1: 204 through the error channel is success; 500 through
the error channel is an `ApiError` with status and body. -/
theorem C1_api_status_normalization_witness :
    api (.httpError 204 "x") = .ok 204 ∧
    api (.httpError 500 "boom") = .error (.apiError 500 "boom") :=
  ⟨((C1_api_status_normalization 204 "x").1 (by decide)).2,
   (C1_api_status_normalization 500 "boom").2.1 (by decide)⟩

/-- Claim C2: on a Create or Update event over a well-formed document, the
issued calls are exactly the exchange requests, then the queue requests,
then the binding requests, then the policy requests, each kind in document
order; the trace is a function of the document, hence deterministic. -/
theorem C2_fixed_apply_order (rt : RequestType) (props : ResourceProperties)
    (secret : List (String × String)) (doc : RawDoc) (arn host : String)
    (cred : String × String)
    (hrt : rt = .Create ∨ rt = .Update)
    (harn : props.SecretArn = some arn)
    (hhost : props.BrokerHost = some host)
    (htop : props.Topology = some (.valid doc))
    (hcred : extract_credentials secret = .ok cred)
    (hwf : wellFormed doc = true) :
    (on_event rt props secret alwaysOk).trace =
      doc.exchanges.map exchangeReqT ++ doc.queues.map queueReqT ++
      doc.bindings.map bindingReqT ++ doc.policies.map policyReqT := by
  have happly := applyTopology_all_ok alwaysOk doc hwf (fun i _ => rfl)
  rcases hrt with h | h <;> subst h <;>
    simp [on_event, harn, hhost, htop, requireKey, json_loads, hcred, happly, fullReqs]

/-- Witness for C2: the scenario document yields the three requests in
kind order. -/
theorem C2_fixed_apply_order_witness :
    (on_event .Create scenarioProps scenarioSecret alwaysOk).trace =
      scenarioDoc.exchanges.map exchangeReqT ++ scenarioDoc.queues.map queueReqT ++
      scenarioDoc.bindings.map bindingReqT ++ scenarioDoc.policies.map policyReqT :=
  C2_fixed_apply_order .Create scenarioProps scenarioSecret scenarioDoc
    "arn:secret" "broker.example.com" ("u", "p") (Or.inl rfl) rfl rfl rfl rfl rfl

/-- Claim C3: a Delete event performs no secret-store call and no HTTP
call and returns success with the stable physical id and no `Data`; every
successful invocation, whatever the request type, returns that same
physical id. -/
theorem C3_delete_no_calls :
    (∀ (props : ResourceProperties) (secret : List (String × String))
        (oracle : Nat → HttpResult),
      on_event .Delete props secret oracle = ⟨0, [], .ok ⟨physical_id, none⟩⟩) ∧
    (∀ (rt : RequestType) (props : ResourceProperties) (secret : List (String × String))
        (oracle : Nat → HttpResult) (r : HandlerReturn),
      (on_event rt props secret oracle).result = .ok r →
      r.PhysicalResourceId = physical_id) := by
  refine ⟨fun _ _ _ => rfl, ?_⟩
  intro rt props secret oracle r h
  cases rt <;> simp only [on_event] at h <;> repeat' split at h
  all_goals (simp at h; try (rw [← h]))

/-- Witness for C3: a concrete Delete invocation returns the stable id
with no `Data`, and its result carries that same physical id. -/
theorem C3_delete_no_calls_witness :
    on_event .Delete emptyProps [] alwaysOk = ⟨0, [], .ok ⟨physical_id, none⟩⟩ ∧
    (⟨physical_id, none⟩ : HandlerReturn).PhysicalResourceId = physical_id :=
  ⟨C3_delete_no_calls.1 emptyProps [] alwaysOk,
   C3_delete_no_calls.2 .Delete emptyProps [] alwaysOk ⟨physical_id, none⟩ rfl⟩

/-- Claim C4: when the `k`-th call of the pass is the first to fail, the
pass aborts with that `ApiError`: exactly the first `k + 1` requests of
the full sequence were issued — every entity before the failure stays
applied with no compensating call, and nothing after the failing entity
(in particular no binding or policy after a failed queue PUT) gets any
HTTP call in that pass. -/
theorem C4_fail_fast (rt : RequestType) (props : ResourceProperties)
    (secret : List (String × String)) (doc : RawDoc) (arn host : String)
    (cred : String × String) (oracle : Nat → HttpResult) (k status : Nat)
    (bodyText : String)
    (hrt : rt = .Create ∨ rt = .Update)
    (harn : props.SecretArn = some arn)
    (hhost : props.BrokerHost = some host)
    (htop : props.Topology = some (.valid doc))
    (hcred : extract_credentials secret = .ok cred)
    (hwf : wellFormed doc = true)
    (hk : k < (fullReqs doc).length)
    (hok : ∀ i, i < k → apiOk (oracle i) = true)
    (hfail : api (oracle k) = .error (.apiError status bodyText)) :
    (on_event rt props secret oracle).trace = (fullReqs doc).take (k + 1) ∧
    (on_event rt props secret oracle).result = .error (.apiError status bodyText) := by
  obtain ⟨ht, he⟩ := applyTopology_fail_at oracle doc k _ hwf hk hok hfail
  rcases hrt with h | h <;> subst h <;>
    simp [on_event, harn, hhost, htop, requireKey, json_loads, hcred, he, ht]

/-- Witness for C4: a 409 conflict on the queue PUT (call index 1) of a
one-of-each document aborts the pass after two calls. -/
theorem C4_fail_fast_witness :
    (on_event .Create midProps scenarioSecret oracle409).trace =
      (fullReqs midFailDoc).take 2 ∧
    (on_event .Create midProps scenarioSecret oracle409).result =
      .error (.apiError 409 "conflict") :=
  C4_fail_fast .Create midProps scenarioSecret midFailDoc "arn:secret"
    "broker.example.com" ("u", "p") oracle409 1 409 "conflict" (Or.inl rfl)
    rfl rfl rfl rfl rfl (by decide)
    (fun i hi => by
      have h0 : i = 0 := by omega
      subst h0
      rfl)
    rfl

/-- Claim C5, counterexample: the document `dupDoc` duplicates the
exchange name `a` within its kind, yet the handler raises no error at all:
the apply succeeds and both occurrences are applied. There is no duplicate
check and no `MalformedTopologyError`. -/
theorem C5_counterexample :
    dupDoc.exchanges.map RawExchange.name = [some "a", some "a"] ∧
    (on_event .Create dupProps scenarioSecret alwaysOk).result =
      .ok ⟨physical_id, some [("exchanges", "2"), ("queues", "0"),
                              ("bindings", "0"), ("policies", "0")]⟩ :=
  ⟨rfl, rfl⟩

/-- Claim C5, amended: a syntactically invalid topology text fails with
the JSON decode error before any secret-store or broker interaction; a
missing required field (here a binding's `source`) raises a `KeyError`
only when that entity is reached during the pass, after earlier entities
have already been applied over the network; duplicate names within a kind
are not detected — each occurrence is applied. -/
theorem C5_parsing_behavior :
    (∀ (rt : RequestType) (props : ResourceProperties) (secret : List (String × String))
        (oracle : Nat → HttpResult) (msg arn host : String),
      (rt = .Create ∨ rt = .Update) →
      props.SecretArn = some arn → props.BrokerHost = some host →
      props.Topology = some (.invalid msg) →
      on_event rt props secret oracle = ⟨0, [], .error (.jsonDecodeError msg)⟩) ∧
    applyTopology alwaysOk missingFieldDoc =
      ⟨[exchangeReqT ⟨some "ex1", none, none, none, none⟩], (1, 0, 0, 0),
       some (.keyError "source")⟩ ∧
    (on_event .Create dupProps scenarioSecret alwaysOk).trace.length = 2 := by
  refine ⟨?_, rfl, rfl⟩
  intro rt props secret oracle msg arn host hrt harn hhost htop
  rcases hrt with h | h <;> subst h <;>
    simp [on_event, harn, hhost, htop, requireKey, json_loads]

/-- Witness for C5: an invalid topology text makes the handler fail with
the decode error, with no secret call and no HTTP call. -/
theorem C5_parsing_behavior_witness :
    on_event .Create invalidTopologyProps [] alwaysOk =
      ⟨0, [], .error (.jsonDecodeError "not json")⟩ :=
  C5_parsing_behavior.1 .Create invalidTopologyProps [] alwaysOk "not json"
    "arn:secret" "broker.example.com" (Or.inl rfl) rfl rfl rfl

/-- Claim C6: a successful Create or Update returns the stable physical id
together with a `Data` mapping whose per-kind counts are the entity counts
of the input document serialized as text; and the worked scenario issues
exactly three successful calls — exchange PUT, queue PUT, binding POST, in
that order — returning counts 1/1/1/0. -/
theorem C6_success_counts :
    (∀ (rt : RequestType) (props : ResourceProperties) (secret : List (String × String))
        (oracle : Nat → HttpResult) (doc : RawDoc) (arn host : String) (r : HandlerReturn),
      (rt = .Create ∨ rt = .Update) →
      props.SecretArn = some arn → props.BrokerHost = some host →
      props.Topology = some (.valid doc) →
      (on_event rt props secret oracle).result = .ok r →
      r.PhysicalResourceId = physical_id ∧
      r.Data = some [("exchanges", toString doc.exchanges.length),
                     ("queues", toString doc.queues.length),
                     ("bindings", toString doc.bindings.length),
                     ("policies", toString doc.policies.length)]) ∧
    on_event .Create scenarioProps scenarioSecret alwaysOk =
      ⟨1,
       [⟨"PUT", "/exchanges/%2F/orders.ex",
         [("type", .str "topic"), ("durable", .bool true),
          ("auto_delete", .bool false), ("arguments", .obj [])]⟩,
        ⟨"PUT", "/queues/%2F/orders.q",
         [("durable", .bool true), ("auto_delete", .bool false),
          ("arguments", .obj [])]⟩,
        ⟨"POST", "/bindings/%2F/e/orders.ex/q/orders.q",
         [("routing_key", .str "order.*"), ("arguments", .obj [])]⟩],
       .ok ⟨physical_id,
            some [("exchanges", "1"), ("queues", "1"),
                  ("bindings", "1"), ("policies", "0")]⟩⟩ := by
  refine ⟨?_, rfl⟩
  intro rt props secret oracle doc arn host r hrt harn hhost htop hres
  have main : ∀ rt2 : RequestType, rt2 = .Create ∨ rt2 = .Update →
      (on_event rt2 props secret oracle).result = .ok r →
      r.PhysicalResourceId = physical_id ∧
      r.Data = some [("exchanges", toString doc.exchanges.length),
                     ("queues", toString doc.queues.length),
                     ("bindings", toString doc.bindings.length),
                     ("policies", toString doc.policies.length)] := by
    intro rt2 hrt2 hres2
    rcases hrt2 with h | h <;> subst h <;>
      (simp only [on_event, harn, hhost, htop, requireKey, json_loads] at hres2
       cases hcred : extract_credentials secret with
       | error e => rw [hcred] at hres2; simp at hres2
       | ok cred =>
         rw [hcred] at hres2
         cases herr : (applyTopology oracle doc).err with
         | some e => rw [herr] at hres2; simp at hres2
         | none =>
           rw [herr] at hres2
           have hc := applyTopology_err_none oracle doc herr
           simp at hres2
           rw [← hres2]
           simp [countsData, hc])
  exact main rt hrt hres

/-- Witness for C6: the scenario returns the physical id and the counts
1/1/1/0 serialized as text. -/
theorem C6_success_counts_witness :
    (⟨physical_id, some [("exchanges", "1"), ("queues", "1"),
                         ("bindings", "1"), ("policies", "0")]⟩
        : HandlerReturn).PhysicalResourceId = physical_id ∧
    (⟨physical_id, some [("exchanges", "1"), ("queues", "1"),
                         ("bindings", "1"), ("policies", "0")]⟩
        : HandlerReturn).Data =
      some [("exchanges", toString scenarioDoc.exchanges.length),
            ("queues", toString scenarioDoc.queues.length),
            ("bindings", toString scenarioDoc.bindings.length),
            ("policies", toString scenarioDoc.policies.length)] :=
  C6_success_counts.1 .Create scenarioProps scenarioSecret alwaysOk scenarioDoc
    "arn:secret" "broker.example.com" _ (Or.inl rfl) rfl rfl rfl rfl

/-- Claim C7: absent optional fields are defaulted in the request bodies —
exchange `type` to `direct`, `durable` to true, `auto_delete` to false,
`arguments` to the empty mapping; queue likewise; binding `routing_key` to
the empty string and `arguments` to the empty mapping; policy `apply-to`
to `queues` (under that key) and `priority` to 0 — while policy `pattern`
and `definition` are copied from the document with no default. -/
theorem C7_body_defaults (ex : RawExchange) (q : RawQueue) (b : RawBinding)
    (p : RawPolicy) (pat : String) (defn : List (String × JsonVal)) :
    (ex.type = none → (exchange_body ex).lookup "type" = some (.str "direct")) ∧
    (ex.durable = none → (exchange_body ex).lookup "durable" = some (.bool true)) ∧
    (ex.auto_delete = none → (exchange_body ex).lookup "auto_delete" = some (.bool false)) ∧
    (ex.arguments = none → (exchange_body ex).lookup "arguments" = some (.obj [])) ∧
    (q.durable = none → (queue_body q).lookup "durable" = some (.bool true)) ∧
    (q.auto_delete = none → (queue_body q).lookup "auto_delete" = some (.bool false)) ∧
    (q.arguments = none → (queue_body q).lookup "arguments" = some (.obj [])) ∧
    (b.routing_key = none → (binding_body b).lookup "routing_key" = some (.str "")) ∧
    (b.arguments = none → (binding_body b).lookup "arguments" = some (.obj [])) ∧
    (p.apply_to = none → (policy_body p pat defn).lookup "apply-to" = some (.str "queues")) ∧
    (p.priority = none → (policy_body p pat defn).lookup "priority" = some (.num 0)) ∧
    (policy_body p pat defn).lookup "pattern" = some (.str pat) ∧
    (policy_body p pat defn).lookup "definition" = some (.obj defn) := by
  refine ⟨fun h => ?_, fun h => ?_, fun h => ?_, fun h => ?_, fun h => ?_, fun h => ?_,
    fun h => ?_, fun h => ?_, fun h => ?_, fun h => ?_, fun h => ?_, ?_, ?_⟩ <;>
    simp [exchange_body, queue_body, binding_body, policy_body, List.lookup, *]

/-- Witness for C7: entities with every optional field absent get exactly
the documented defaults. -/
theorem C7_body_defaults_witness :
    (exchange_body bareExchange).lookup "type" = some (.str "direct") ∧
    (exchange_body bareExchange).lookup "durable" = some (.bool true) ∧
    (exchange_body bareExchange).lookup "auto_delete" = some (.bool false) ∧
    (exchange_body bareExchange).lookup "arguments" = some (.obj []) ∧
    (queue_body bareQueue).lookup "durable" = some (.bool true) ∧
    (queue_body bareQueue).lookup "auto_delete" = some (.bool false) ∧
    (queue_body bareQueue).lookup "arguments" = some (.obj []) ∧
    (binding_body bareBinding).lookup "routing_key" = some (.str "") ∧
    (binding_body bareBinding).lookup "arguments" = some (.obj []) ∧
    (policy_body barePolicy ".*" []).lookup "apply-to" = some (.str "queues") ∧
    (policy_body barePolicy ".*" []).lookup "priority" = some (.num 0) ∧
    (policy_body barePolicy ".*" []).lookup "pattern" = some (.str ".*") ∧
    (policy_body barePolicy ".*" []).lookup "definition" = some (.obj []) := by
  have h := C7_body_defaults bareExchange bareQueue bareBinding barePolicy ".*" []
  exact ⟨h.1 rfl, h.2.1 rfl, h.2.2.1 rfl, h.2.2.2.1 rfl, h.2.2.2.2.1 rfl,
    h.2.2.2.2.2.1 rfl, h.2.2.2.2.2.2.1 rfl, h.2.2.2.2.2.2.2.1 rfl,
    h.2.2.2.2.2.2.2.2.1 rfl, h.2.2.2.2.2.2.2.2.2.1 rfl,
    h.2.2.2.2.2.2.2.2.2.2.1 rfl, h.2.2.2.2.2.2.2.2.2.2.2.1,
    h.2.2.2.2.2.2.2.2.2.2.2.2⟩

/-- Claim C8: every generated path embeds each entity name through
`pctQuote` — the percent-encoding with nothing exempted — and the output
of `pctQuote` contains only unreserved characters and `%`, so `/`, spaces
and non-ASCII characters never survive unencoded; concrete encodings of a
slash, a space and a non-ASCII letter are as expected. -/
theorem C8_percent_encoded_paths :
    (∀ (ex : RawExchange) (nm : String), ex.name = some nm →
      mkExchangeReq ex =
        .ok ⟨"PUT", "/exchanges/" ++ vhost ++ "/" ++ pctQuote nm, exchange_body ex⟩) ∧
    (∀ (q : RawQueue) (nm : String), q.name = some nm →
      mkQueueReq q =
        .ok ⟨"PUT", "/queues/" ++ vhost ++ "/" ++ pctQuote nm, queue_body q⟩) ∧
    (∀ (b : RawBinding) (src dst : String),
      b.source = some src → b.destination = some dst →
      mkBindingReq b =
        .ok ⟨"POST", "/bindings/" ++ vhost ++ "/e/" ++ pctQuote src ++ "/q/" ++
               pctQuote dst, binding_body b⟩) ∧
    (∀ (p : RawPolicy) (nm pat : String) (defn : List (String × JsonVal)),
      p.name = some nm → p.pattern = some pat → p.definition = some defn →
      mkPolicyReq p =
        .ok ⟨"PUT", "/policies/" ++ vhost ++ "/" ++ pctQuote nm, policy_body p pat defn⟩) ∧
    (∀ (s : String) (c : Char), c ∈ (pctQuote s).data → isAlwaysSafe c = true ∨ c = '%') ∧
    pctQuote "a/b" = "a%2Fb" ∧ pctQuote "my queue" = "my%20queue" ∧
    pctQuote "café" = "caf%C3%A9" := by
  refine ⟨fun ex nm h => ?_, fun q nm h => ?_, fun b src dst h1 h2 => ?_,
    fun p nm pat defn h1 h2 h3 => ?_, pctQuote_safe, by decide, by decide, by decide⟩
  · simp [mkExchangeReq, requireKey, h]
  · simp [mkQueueReq, requireKey, h]
  · simp [mkBindingReq, requireKey, h1, h2]
  · simp [mkPolicyReq, requireKey, h1, h2, h3]

/-- Witness for C8: the binding request for names containing a slash and a
space uses the encoded segments. -/
theorem C8_percent_encoded_paths_witness :
    mkBindingReq ⟨some "a/b", some "my queue", none, none⟩ =
      .ok ⟨"POST", "/bindings/" ++ vhost ++ "/e/" ++ pctQuote "a/b" ++ "/q/" ++
             pctQuote "my queue", binding_body ⟨some "a/b", some "my queue", none, none⟩⟩ ∧
    pctQuote "a/b" = "a%2Fb" :=
  ⟨C8_percent_encoded_paths.2.2.1 ⟨some "a/b", some "my queue", none, none⟩
      "a/b" "my queue" rfl rfl,
   C8_percent_encoded_paths.2.2.2.2.2.1⟩

/-- Claim C9, counterexample: a payload whose `username` key is present
but empty is rejected with the credential error, although a case variant
of the key is present — so "fails exactly when neither case variant is
present" does not hold. -/
theorem C9_counterexample :
    (pyGet [("username", ""), ("password", "p")] "username").isSome = true ∧
    extract_credentials [("username", ""), ("password", "p")] =
      .error .credentialError :=
  ⟨rfl, rfl⟩

/-- Claim C9, amended: the two key-name case variants are accepted
interchangeably — a capitalized payload yields the same credentials as a
lowercase one — and extraction fails with the credential error exactly
when, for either field, the `lowercase or Capitalized` lookup chain yields
no non-empty value (an absent key and an empty-string value both count as
missing, per Python truthiness). -/
theorem C9_credential_extraction :
    (∀ u p : String, u ≠ "" → p ≠ "" →
      extract_credentials [("Username", u), ("Password", p)] = .ok (u, p) ∧
      extract_credentials [("username", u), ("password", p)] = .ok (u, p)) ∧
    (∀ secret : List (String × String),
      extract_credentials secret = .error .credentialError ↔
        (truthyOpt (pyOr (pyGet secret "username") (pyGet secret "Username")) = false ∨
         truthyOpt (pyOr (pyGet secret "password") (pyGet secret "Password")) = false)) := by
  constructor
  · intro u p hu hp
    constructor <;>
      simp [extract_credentials, pyGet, pyOr, truthyOpt, List.lookup, hu, hp]
  · intro secret
    cases hu : truthyOpt (pyOr (pyGet secret "username") (pyGet secret "Username")) <;>
    cases hp : truthyOpt (pyOr (pyGet secret "password") (pyGet secret "Password")) <;>
      simp [extract_credentials, hu, hp]

/-- Witness for C9: the capitalized payload is accepted with the same
credentials as the lowercase one. -/
theorem C9_credential_extraction_witness :
    extract_credentials [("Username", "u"), ("Password", "p")] = .ok ("u", "p") ∧
    extract_credentials [("username", "u"), ("password", "p")] = .ok ("u", "p") :=
  C9_credential_extraction.1 "u" "p" (by decide) (by decide)

/-- Claim C10: a Delete outcome is the same whatever the resource
properties, secret payload, or transport — no property field is read, the
secret store is never contacted, no HTTP call is made — and in particular
a Delete with every property absent and an unparseable topology text still
succeeds with the stable physical id and no `Data`. -/
theorem C10_delete_ignores_properties :
    (∀ (p1 p2 : ResourceProperties) (s1 s2 : List (String × String))
        (o1 o2 : Nat → HttpResult),
      on_event .Delete p1 s1 o1 = on_event .Delete p2 s2 o2) ∧
    (∀ (props : ResourceProperties) (secret : List (String × String))
        (oracle : Nat → HttpResult),
      (on_event .Delete props secret oracle).secretCalls = 0 ∧
      (on_event .Delete props secret oracle).trace = [] ∧
      (on_event .Delete props secret oracle).result = .ok ⟨physical_id, none⟩) ∧
    on_event .Delete ⟨none, none, none, some (.invalid "not json")⟩ [] alwaysOk =
      ⟨0, [], .ok ⟨physical_id, none⟩⟩ :=
  ⟨fun _ _ _ _ _ _ => rfl, fun _ _ _ => ⟨rfl, rfl, rfl⟩, rfl⟩

end RabbitMQTopology
